import Mathlib

/-!
Verification of the resume GraphQL service (`src/main.py`) against its
specification.  The service exposes create mutations and read queries over
three related tables (users, education, job_experience) through an ORM with
per-request commit/rollback.  We shallowly embed the data model, the
database's constraint behaviour (primary key, unique email, foreign keys),
the three create mutations, the root queries and the nested field resolvers,
and prove the spec's testable properties about them.

Modelling conventions:
* UUIDs, e-mail addresses and JSON documents are opaque strings.
* Dates and timestamps are natural numbers (their values are never computed
  with, only stored and echoed back).
* Python `float` values are modelled by their decimal string rendering in
  fixed notation (sign, integer part, fractional digits), which is exact for
  the `Numeric(3,2)` grade range the service stores; `Decimal` values are
  modelled as integer mantissa times a power of ten.
* The database is a triple of row lists; a successful INSERT appends, and
  constraint violations or injected connectivity faults surface as
  `Except.error` carrying the error text, which the mutations catch exactly
  as the `try/except` blocks in the source do.
-/

/-- Python float as observed through `str()`: sign, integer part and the
digits printed after the decimal point.  `str(3.75) = "3.75"` is
`⟨false, 3, [7, 5]⟩`; `str(0.0) = "0.0"` is `⟨false, 0, [0]⟩`. -/
structure PyFloat where
  neg : Bool
  intPart : Nat
  frac : List Nat
deriving DecidableEq, Repr

/-- Python `decimal.Decimal`: an integer mantissa scaled by a power of ten.
`Decimal("3.75")` is `⟨375, -2⟩`. -/
structure PyDecimal where
  mantissa : Int
  exponent : Int
deriving DecidableEq, Repr

/-- Truthiness of a Python float: `bool(f)` is `False` exactly when the value
is zero, i.e. all displayed digits are `0`. -/
def PyFloat.isZero (f : PyFloat) : Bool :=
  f.intPart == 0 && f.frac.all (· == 0)

/-- Truthiness of a Python `Decimal`: falsy exactly when the mantissa is 0
(`Decimal("0.00")` is falsy). -/
def PyDecimal.isZero (d : PyDecimal) : Bool :=
  d.mantissa == 0

/-- Decimal digits of a natural number, most significant first (`[0]` for 0). -/
def natDigits (n : Nat) : List Nat :=
  (Nat.toDigits 10 n).map (fun c => c.toNat - 48)

/-- The character rendering of `str(float)` in fixed notation
(`src/main.py:461`, the `str(input.gpa)` inside `Decimal(str(input.gpa))`). -/
def pyFloatRepr (f : PyFloat) : List Char :=
  (if f.neg then ['-'] else []) ++ Nat.toDigits 10 f.intPart
    ++ ['.'] ++ f.frac.map (fun d => Char.ofNat (48 + d))

/-- Accumulate decimal digit characters into a natural number. -/
def digitsToNat (s : List Char) : Nat :=
  s.foldl (fun acc c => acc * 10 + (c.toNat - 48)) 0

/-- `Decimal(s)` on a plain decimal string: parse an optional sign, the
digits before the point and the digits after, producing mantissa and
exponent.  `Decimal("3.75") = ⟨375, -2⟩`. -/
def decimalParse (s : List Char) : PyDecimal :=
  let neg := match s with
    | '-' :: _ => true
    | _ => false
  let body := match s with
    | '-' :: rest => rest
    | _ => s
  let ip := body.takeWhile (fun c => c ≠ '.')
  let fp := (body.dropWhile (fun c => c ≠ '.')).drop 1
  let mag : Nat := digitsToNat ip * 10 ^ fp.length + digitsToNat fp
  { mantissa := (if neg then -1 else 1) * (mag : Int),
    exponent := -(fp.length : Int) }

/-- `Decimal(str(f))`: the textual round-trip from float to fixed point used
by `Mutation.create_education` (`src/main.py:461`). -/
def decimalOfFloat (f : PyFloat) : PyDecimal :=
  decimalParse (pyFloatRepr f)

/-- `float(d)` on a stored `Numeric(3,2)` decimal, rendered back as a Python
float (`src/main.py:132`, `float(edu.gpa)`).  For decimals with few
significant digits the binary conversion is exact, so the resulting float
displays the decimal's own digits with trailing fractional zeros trimmed
(Python renders `float(Decimal("3.50"))` as `3.5`). -/
def floatOfDecimal (d : PyDecimal) : PyFloat :=
  let m := d.mantissa.natAbs
  let neg := decide (d.mantissa < 0)
  if 0 ≤ d.exponent then
    { neg := neg, intPart := m * 10 ^ d.exponent.toNat, frac := [0] }
  else
    let k := (-d.exponent).toNat
    let ds := natDigits (m % 10 ^ k)
    let padded := List.replicate (k - ds.length) 0 ++ ds
    let trimmed := (padded.reverse.dropWhile (· == 0)).reverse
    { neg := neg, intPart := m / 10 ^ k,
      frac := if trimmed.isEmpty then [0] else trimmed }

/-- A row of the `users` table (`UserModel`, `src/main.py:56`). -/
structure UserRow where
  user_id : String
  email : String
  full_name : Option String
  password_hash : String
  created_at : Nat
  updated_at : Nat
deriving DecidableEq, Repr

/-- A row of the `education` table (`EducationModel`, `src/main.py:66`).
`details` is an opaque JSON document. -/
structure EducationRow where
  education_id : String
  user_id : String
  institution_name : String
  location : Option String
  date_started : Nat
  date_finished : Option Nat
  major : Option String
  minor : Option String
  gpa : Option PyDecimal
  details : Option String
  created_at : Nat
  updated_at : Nat
deriving DecidableEq, Repr

/-- A row of the `job_experience` table (`JobExperienceModel`,
`src/main.py:82`). -/
structure JobRow where
  job_id : String
  user_id : String
  company_name : String
  job_title : Option String
  location : Option String
  date_started : Nat
  date_left : Option Nat
  details : Option String
  created_at : Nat
  updated_at : Nat
deriving DecidableEq, Repr

/-- The relational store: the three tables. -/
structure Store where
  users : List UserRow
  educations : List EducationRow
  jobs : List JobRow
deriving DecidableEq, Repr

/-- INSERT into `users`, with the constraints the database enforces: primary
key on `user_id`, unique index on `email` (`src/main.py:59-60`).  On success
the row is appended; on violation the transaction fails with the error text. -/
def insertUser (st : Store) (row : UserRow) : Except String Store :=
  if st.users.any (fun u => u.user_id == row.user_id) then
    .error "duplicate key value violates unique constraint users_pkey"
  else if st.users.any (fun u => u.email == row.email) then
    .error "duplicate key value violates unique constraint users_email_key"
  else
    .ok { st with users := st.users ++ [row] }

/-- INSERT into `education`: primary key on `education_id`, foreign key
`user_id → users.user_id` (`src/main.py:69-70`). -/
def insertEducation (st : Store) (row : EducationRow) : Except String Store :=
  if st.educations.any (fun e => e.education_id == row.education_id) then
    .error "duplicate key value violates unique constraint education_pkey"
  else if !(st.users.any (fun u => u.user_id == row.user_id)) then
    .error "insert on table education violates foreign key constraint education_user_id_fkey"
  else
    .ok { st with educations := st.educations ++ [row] }

/-- INSERT into `job_experience`: primary key on `job_id`, foreign key
`user_id → users.user_id` (`src/main.py:85-86`). -/
def insertJob (st : Store) (row : JobRow) : Except String Store :=
  if st.jobs.any (fun j => j.job_id == row.job_id) then
    .error "duplicate key value violates unique constraint job_experience_pkey"
  else if !(st.users.any (fun u => u.user_id == row.user_id)) then
    .error "insert on table job_experience violates foreign key constraint job_experience_user_id_fkey"
  else
    .ok { st with jobs := st.jobs ++ [row] }

/-- `session.commit()` for an attempted insert.  `fault` injects a
non-constraint persistence failure (connectivity loss, etc.); otherwise the
database's constraint semantics decide. -/
def commitInsert (fault : Option String) (ins : Except String Store) :
    Except String Store :=
  match fault with
  | some e => .error e
  | none => ins

/-- GraphQL `User` type (`src/main.py:105-111`): the plain fields; the nested
`education` / `job_experience` fields are the resolver functions below. -/
structure User where
  user_id : String
  email : String
  full_name : Option String
  created_at : Nat
  updated_at : Nat
deriving DecidableEq, Repr

/-- GraphQL `Education` type (`src/main.py:165-178`). -/
structure Education where
  education_id : String
  user_id : String
  institution_name : String
  location : Option String
  date_started : Nat
  date_finished : Option Nat
  major : Option String
  minor : Option String
  gpa : Option PyFloat
  details : Option String
  created_at : Nat
  updated_at : Nat
deriving DecidableEq, Repr

/-- GraphQL `JobExperience` type (`src/main.py:199-210`). -/
structure JobExperience where
  job_id : String
  user_id : String
  company_name : String
  job_title : Option String
  location : Option String
  date_started : Nat
  date_left : Option Nat
  details : Option String
  created_at : Nat
  updated_at : Nat
deriving DecidableEq, Repr

/-- The field mapping from a `users` row to the GraphQL `User` entity, as
written identically at `src/main.py:314-321`, `334-341`, `190-196`,
`222-228` and `431-437`. -/
def userOfRow (u : UserRow) : User :=
  { user_id := u.user_id
    email := u.email
    full_name := u.full_name
    created_at := u.created_at
    updated_at := u.updated_at }

/-- The transport conversion of a stored grade, `float(edu.gpa) if edu.gpa
else None` (`src/main.py:132`, `368`, `481`): a falsy stored decimal (absent
or zero) becomes `None`, otherwise `float` of the decimal. -/
def gpaOut (g : Option PyDecimal) : Option PyFloat :=
  match g with
  | some d => if d.isZero then none else some (floatOfDecimal d)
  | none => none

/-- The field mapping from an `education` row to the GraphQL `Education`
entity (`src/main.py:122-136`, `358-372`, `472-485`), including the
falsy-to-null grade conversion. -/
def educationOfRow (e : EducationRow) : Education :=
  { education_id := e.education_id
    user_id := e.user_id
    institution_name := e.institution_name
    location := e.location
    date_started := e.date_started
    date_finished := e.date_finished
    major := e.major
    minor := e.minor
    gpa := gpaOut e.gpa
    details := e.details
    created_at := e.created_at
    updated_at := e.updated_at }

/-- The field mapping from a `job_experience` row to the GraphQL
`JobExperience` entity (`src/main.py:149-163`, `390-402`, `518-529`). -/
def jobOfRow (j : JobRow) : JobExperience :=
  { job_id := j.job_id
    user_id := j.user_id
    company_name := j.company_name
    job_title := j.job_title
    location := j.location
    date_started := j.date_started
    date_left := j.date_left
    details := j.details
    created_at := j.created_at
    updated_at := j.updated_at }

/-- SQLAlchemy `Result.scalar_one_or_none()`: `none` on no rows, the row if
exactly one, and a `MultipleResultsFound` error otherwise (a read-side error
propagates to the transport layer, spec section 7). -/
def scalarOneOrNone {α : Type} (l : List α) : Except String (Option α) :=
  match l with
  | [] => .ok none
  | [a] => .ok (some a)
  | _ => .error "Multiple rows were found when one or none was required"

/-- Nested resolver `User.education` (`src/main.py:113-138`): all education
rows whose `user_id` equals the parent user's id, mapped to entities. -/
def User.educationField (st : Store) (u : User) : List Education :=
  (st.educations.filter (fun e => e.user_id == u.user_id)).map educationOfRow

/-- Nested resolver `User.job_experience` (`src/main.py:140-163`). -/
def User.jobExperienceField (st : Store) (u : User) : List JobExperience :=
  (st.jobs.filter (fun j => j.user_id == u.user_id)).map jobOfRow

/-- Nested resolver `Education.user` (`src/main.py:180-197`): the single user
row matching the child's `user_id`, or `none` when the reference dangles. -/
def Education.userField (st : Store) (e : Education) :
    Except String (Option User) :=
  (scalarOneOrNone (st.users.filter (fun u => u.user_id == e.user_id))).map
    (Option.map userOfRow)

/-- Nested resolver `JobExperience.user` (`src/main.py:212-229`). -/
def JobExperience.userField (st : Store) (j : JobExperience) :
    Except String (Option User) :=
  (scalarOneOrNone (st.users.filter (fun u => u.user_id == j.user_id))).map
    (Option.map userOfRow)

namespace Query

/-- Root query `users` (`src/main.py:307-323`): all user rows, unfiltered. -/
def users (st : Store) : List User :=
  st.users.map userOfRow

/-- Root query `user(user_id)` (`src/main.py:325-342`): the single matching
row via `scalar_one_or_none`, or `none` when absent. -/
def user (st : Store) (user_id : String) : Except String (Option User) :=
  (scalarOneOrNone (st.users.filter (fun u => u.user_id == user_id))).map
    (Option.map userOfRow)

/-- Root query `education_records(user_id)` (`src/main.py:344-374`).  The
filter is applied under Python truthiness (`if user_id:`), so it is skipped
both when the argument is absent and when it is the empty string. -/
def education_records (st : Store) (user_id : Option String) :
    List Education :=
  let rows :=
    match user_id with
    | some uid =>
        if uid == "" then st.educations
        else st.educations.filter (fun e => e.user_id == uid)
    | none => st.educations
  rows.map educationOfRow

/-- Root query `job_experiences(user_id)` (`src/main.py:376-404`), symmetric
to `education_records`. -/
def job_experiences (st : Store) (user_id : Option String) :
    List JobExperience :=
  let rows :=
    match user_id with
    | some uid =>
        if uid == "" then st.jobs
        else st.jobs.filter (fun j => j.user_id == uid)
    | none => st.jobs
  rows.map jobOfRow

end Query

/-- Mutation input `CreateUserInput` (`src/main.py:232-236`). -/
structure CreateUserInput where
  email : String
  full_name : Option String
  password : String
deriving DecidableEq, Repr

/-- Mutation input `CreateEducationInput` (`src/main.py:243-253`). -/
structure CreateEducationInput where
  user_id : String
  institution_name : String
  location : Option String
  date_started : Nat
  date_finished : Option Nat
  major : Option String
  minor : Option String
  gpa : Option PyFloat
  details : Option String
deriving DecidableEq, Repr

/-- Mutation input `CreateJobExperienceInput` (`src/main.py:266-274`). -/
structure CreateJobExperienceInput where
  user_id : String
  company_name : String
  job_title : Option String
  location : Option String
  date_started : Nat
  date_left : Option Nat
  details : Option String
deriving DecidableEq, Repr

/-- Response type `CreateUserResponse` (`src/main.py:286-290`). -/
structure CreateUserResponse where
  success : Bool
  message : String
  user : Option User
deriving DecidableEq, Repr

/-- Response type `CreateEducationResponse` (`src/main.py:292-296`). -/
structure CreateEducationResponse where
  success : Bool
  message : String
  education : Option Education
deriving DecidableEq, Repr

/-- Response type `CreateJobExperienceResponse` (`src/main.py:298-302`). -/
structure CreateJobExperienceResponse where
  success : Bool
  message : String
  job_experience : Option JobExperience
deriving DecidableEq, Repr

/-- The `UserModel(...)` construction inside `create_user`
(`src/main.py:416-422`): `password_hash = "hashed_" + password`, a fresh
`uuid4` primary key from the column default, and `utcnow` timestamps. -/
def mkUserRow (inp : CreateUserInput) (newId : String) (now : Nat) : UserRow :=
  { user_id := newId
    email := inp.email
    full_name := inp.full_name
    password_hash := "hashed_" ++ inp.password
    created_at := now
    updated_at := now }

/-- The grade conversion on the write path,
`Decimal(str(input.gpa)) if input.gpa else None` (`src/main.py:461`): a
falsy input float (absent or `0.0`) is coerced to null, otherwise the float
is converted by the textual round-trip. -/
def gpaIn (g : Option PyFloat) : Option PyDecimal :=
  match g with
  | some f => if f.isZero then none else some (decimalOfFloat f)
  | none => none

/-- The `EducationModel(...)` construction inside `create_education`
(`src/main.py:453-463`). -/
def mkEducationRow (inp : CreateEducationInput) (newId : String) (now : Nat) :
    EducationRow :=
  { education_id := newId
    user_id := inp.user_id
    institution_name := inp.institution_name
    location := inp.location
    date_started := inp.date_started
    date_finished := inp.date_finished
    major := inp.major
    minor := inp.minor
    gpa := gpaIn inp.gpa
    details := inp.details
    created_at := now
    updated_at := now }

/-- The `JobExperienceModel(...)` construction inside `create_job_experience`
(`src/main.py:501-509`). -/
def mkJobRow (inp : CreateJobExperienceInput) (newId : String) (now : Nat) :
    JobRow :=
  { job_id := newId
    user_id := inp.user_id
    company_name := inp.company_name
    job_title := inp.job_title
    location := inp.location
    date_started := inp.date_started
    date_left := inp.date_left
    details := inp.details
    created_at := now
    updated_at := now }

namespace Mutation

/-- `Mutation.create_user` (`src/main.py:409-445`).  The row is built from
the input, `session.add` plus `commit` attempt to persist it (`fault`
injecting any non-constraint failure), and the `try/except` turns success
into `{success: true, …, user}` (the entity re-read after `refresh`) and any
exception into rollback plus `{success: false, "Error creating user: " +
str(e), user: null}`.  Totality of this function is the no-exception-escapes
guarantee. -/
def create_user (st : Store) (inp : CreateUserInput) (newId : String)
    (now : Nat) (fault : Option String) : Store × CreateUserResponse :=
  let row := mkUserRow inp newId now
  match commitInsert fault (insertUser st row) with
  | .ok st' =>
      (st', { success := true
              message := "User created successfully"
              user := some (userOfRow row) })
  | .error e =>
      (st, { success := false
             message := "Error creating user: " ++ e
             user := none })

/-- `Mutation.create_education` (`src/main.py:447-493`), with failure message
`"Error creating education record: " + str(e)`. -/
def create_education (st : Store) (inp : CreateEducationInput) (newId : String)
    (now : Nat) (fault : Option String) : Store × CreateEducationResponse :=
  let row := mkEducationRow inp newId now
  match commitInsert fault (insertEducation st row) with
  | .ok st' =>
      (st', { success := true
              message := "Education record created successfully"
              education := some (educationOfRow row) })
  | .error e =>
      (st, { success := false
             message := "Error creating education record: " ++ e
             education := none })

/-- `Mutation.create_job_experience` (`src/main.py:495-537`), with failure
message `"Error creating job experience: " + str(e)`. -/
def create_job_experience (st : Store) (inp : CreateJobExperienceInput)
    (newId : String) (now : Nat) (fault : Option String) :
    Store × CreateJobExperienceResponse :=
  let row := mkJobRow inp newId now
  match commitInsert fault (insertJob st row) with
  | .ok st' =>
      (st', { success := true
              message := "Job experience created successfully"
              job_experience := some (jobOfRow row) })
  | .error e =>
      (st, { success := false
             message := "Error creating job experience: " ++ e
             job_experience := none })

end Mutation

/-- Database-guaranteed well-formedness: primary-key uniqueness of the
`users` table's `user_id` column. -/
def Store.usersWF (st : Store) : Prop :=
  st.users.Pairwise (fun a b => a.user_id ≠ b.user_id)

lemma commitInsert_ok {fault : Option String} {ins : Except String Store}
    {st' : Store} (h : commitInsert fault ins = .ok st') :
    fault = none ∧ ins = .ok st' := by
  cases fault with
  | none => exact ⟨rfl, h⟩
  | some e => simp [commitInsert] at h

lemma insertUser_ok {st : Store} {row : UserRow} {st' : Store}
    (h : insertUser st row = .ok st') :
    st'.users = st.users ++ [row] ∧ st'.educations = st.educations ∧
    st'.jobs = st.jobs ∧ (∀ u ∈ st.users, u.user_id ≠ row.user_id) ∧
    (∀ u ∈ st.users, u.email ≠ row.email) := by
  by_cases h1 : st.users.any (fun u => u.user_id == row.user_id)
  · simp [insertUser, h1] at h
  · by_cases h2 : st.users.any (fun u => u.email == row.email)
    · simp [insertUser, h1, h2] at h
    · simp [insertUser, h1, h2] at h
      subst h
      simp only [List.any_eq_true, beq_iff_eq, not_exists, not_and] at h1 h2
      exact ⟨rfl, rfl, rfl, h1, h2⟩

lemma insertUser_email_dup {st : Store} {row : UserRow}
    (h : ∃ u ∈ st.users, u.email = row.email) :
    ∃ e, insertUser st row = .error e := by
  unfold insertUser
  by_cases h1 : st.users.any (fun u => u.user_id == row.user_id)
  · exact ⟨"duplicate key value violates unique constraint users_pkey",
      by simp [h1]⟩
  · have h2 : st.users.any (fun u => u.email == row.email) := by
      simp only [List.any_eq_true, beq_iff_eq]
      exact h
    exact ⟨"duplicate key value violates unique constraint users_email_key",
      by simp [h1, h2]⟩

lemma create_user_cases (st : Store) (inp : CreateUserInput) (newId : String)
    (now : Nat) (fault : Option String) :
    ((Mutation.create_user st inp newId now fault).2.success = false ∧
     (Mutation.create_user st inp newId now fault).2.user = none ∧
     (Mutation.create_user st inp newId now fault).1 = st)
    ∨ ((Mutation.create_user st inp newId now fault).2.success = true ∧
       (Mutation.create_user st inp newId now fault).2.user =
         some (userOfRow (mkUserRow inp newId now)) ∧
       (Mutation.create_user st inp newId now fault).1.users =
         st.users ++ [mkUserRow inp newId now] ∧
       (∀ u ∈ st.users, u.user_id ≠ newId)) := by
  rcases hc : commitInsert fault (insertUser st (mkUserRow inp newId now)) with e | st'
  · left
    simp [Mutation.create_user, hc]
  · right
    obtain ⟨-, hins⟩ := commitInsert_ok hc
    obtain ⟨hu, -, -, hpk, -⟩ := insertUser_ok hins
    refine ⟨?_, ?_, ?_, ?_⟩ <;>
      simp [Mutation.create_user, hc, hu]
    exact fun u hu' => hpk u hu'

/-- C1: every create mutation converts any persistence failure into a rolled
back transaction and a structured `{success: false, message: <prefix + error
text>, entity: null}` response; no exception escapes (the mutations are total
functions into response values). -/
theorem c1_create_mutations_rollback_on_failure (st : Store)
    (uinp : CreateUserInput) (einp : CreateEducationInput)
    (jinp : CreateJobExperienceInput) (newId : String) (now : Nat)
    (fault : Option String) (e : String) :
    (commitInsert fault (insertUser st (mkUserRow uinp newId now)) = .error e →
      Mutation.create_user st uinp newId now fault =
        (st, ⟨false, "Error creating user: " ++ e, none⟩))
    ∧ (commitInsert fault (insertEducation st (mkEducationRow einp newId now)) =
        .error e →
      Mutation.create_education st einp newId now fault =
        (st, ⟨false, "Error creating education record: " ++ e, none⟩))
    ∧ (commitInsert fault (insertJob st (mkJobRow jinp newId now)) = .error e →
      Mutation.create_job_experience st jinp newId now fault =
        (st, ⟨false, "Error creating job experience: " ++ e, none⟩)) := by
  refine ⟨fun h => ?_, fun h => ?_, fun h => ?_⟩
  · simp [Mutation.create_user, h]
  · simp [Mutation.create_education, h]
  · simp [Mutation.create_job_experience, h]

/-- A concrete `CreateUserInput`. -/
def userInput0 : CreateUserInput :=
  { email := "a@b.com", full_name := some "Ada", password := "pw" }

/-- A concrete `CreateEducationInput` with a nonzero grade. -/
def eduInput0 : CreateEducationInput :=
  { user_id := "u1", institution_name := "MIT", location := none
    date_started := 20200101, date_finished := none, major := none
    minor := none, gpa := some ⟨false, 3, [7, 5]⟩, details := none }

/-- A concrete `CreateJobExperienceInput`. -/
def jobInput0 : CreateJobExperienceInput :=
  { user_id := "u1", company_name := "Acme", job_title := none
    location := none, date_started := 20210101, date_left := none
    details := none }

/-- Witness for C1 at an injected connectivity fault on the empty store. -/
theorem c1_witness :
    Mutation.create_user ⟨[], [], []⟩ userInput0 "u1" 0 (some "boom") =
      (⟨[], [], []⟩, ⟨false, "Error creating user: boom", none⟩)
    ∧ Mutation.create_education ⟨[], [], []⟩ eduInput0 "e1" 0 (some "boom") =
      (⟨[], [], []⟩, ⟨false, "Error creating education record: boom", none⟩)
    ∧ Mutation.create_job_experience ⟨[], [], []⟩ jobInput0 "j1" 0
        (some "boom") =
      (⟨[], [], []⟩, ⟨false, "Error creating job experience: boom", none⟩) := by
  obtain ⟨h1, h2, h3⟩ :=
    c1_create_mutations_rollback_on_failure ⟨[], [], []⟩ userInput0 eduInput0
      jobInput0 "u1" 0 (some "boom") "boom"
  exact ⟨by
    have := h1 rfl
    simpa using this, h2 rfl, h3 rfl⟩

/-- C2: creating a user whose email already exists in the store fails the
mutation with `success = false` and leaves the store unchanged, so a
subsequent query observes exactly the rows it observed before (no second row
with that email).  The statement covers the constraint path (`fault = none`,
where the unique index on `email` rejects the insert) and any additional
injected persistence failure alike. -/
theorem c2_duplicate_email_fails_and_rolls_back (st : Store)
    (inp : CreateUserInput) (newId : String) (now : Nat)
    (fault : Option String) (hdup : ∃ u ∈ st.users, u.email = inp.email) :
    (Mutation.create_user st inp newId now fault).2.success = false
    ∧ (Mutation.create_user st inp newId now fault).2.user = none
    ∧ (Mutation.create_user st inp newId now fault).1 = st
    ∧ (Mutation.create_user st inp newId now fault).1.users.filter
        (fun u => u.email == inp.email) =
      st.users.filter (fun u => u.email == inp.email) := by
  have hdup' : ∃ u ∈ st.users, u.email = (mkUserRow inp newId now).email := hdup
  have herr : ∃ e,
      commitInsert fault (insertUser st (mkUserRow inp newId now)) = .error e := by
    cases fault with
    | some e => exact ⟨e, rfl⟩
    | none =>
        obtain ⟨e, he⟩ := insertUser_email_dup hdup'
        exact ⟨e, he⟩
  obtain ⟨e, he⟩ := herr
  refine ⟨?_, ?_, ?_, ?_⟩ <;> simp [Mutation.create_user, he]

/-- A concrete user row already holding the email `"a@b.com"`. -/
def userRow0 : UserRow :=
  { user_id := "u0", email := "a@b.com", full_name := none
    password_hash := "hashed_old", created_at := 0, updated_at := 0 }

/-- A concrete one-user store. -/
def store1 : Store := ⟨[userRow0], [], []⟩

/-- Witness for C2: re-creating `"a@b.com"` on `store1` fails and leaves the
store unchanged. -/
theorem c2_witness :
    (Mutation.create_user store1 userInput0 "u1" 5 none).2.success = false
    ∧ (Mutation.create_user store1 userInput0 "u1" 5 none).1 = store1 := by
  obtain ⟨h1, -, h3, -⟩ :=
    c2_duplicate_email_fails_and_rolls_back store1 userInput0 "u1" 5 none
      ⟨userRow0, by simp [store1], by simp [userRow0, userInput0]⟩
  exact ⟨h1, h3⟩

/-- C10: on every successful `create_user` the persisted row's
`password_hash` is the literal `"hashed_"` prefix concatenated with the raw
input password (`src/main.py:416`); this stored value is an injective
function of the password, and the plaintext is recovered by dropping the
7-character prefix. -/
theorem c10_password_hash_prefix (st : Store) (inp : CreateUserInput)
    (newId : String) (now : Nat) (fault : Option String)
    (h : (Mutation.create_user st inp newId now fault).2.success = true) :
    (Mutation.create_user st inp newId now fault).1.users =
      st.users ++ [mkUserRow inp newId now]
    ∧ (mkUserRow inp newId now).password_hash = "hashed_" ++ inp.password
    ∧ (∀ p q : String, "hashed_" ++ p = "hashed_" ++ q → p = q)
    ∧ (∀ p : String, ("hashed_" ++ p).data.drop 7 = p.data) := by
  rcases create_user_cases st inp newId now fault with ⟨hf, -, -⟩ | ⟨-, -, hu, -⟩
  · rw [h] at hf; cases hf
  · refine ⟨hu, rfl, fun p q hpq => ?_, fun p => ?_⟩
    · have hd := congrArg String.data hpq
      simp only [String.data_append] at hd
      have : p.data = q.data := List.append_cancel_left hd
      exact congrArg String.mk this
    · have hd : ("hashed_" ++ p).data = "hashed_".data ++ p.data :=
        String.data_append "hashed_" p
      rw [hd]
      rfl

/-- Witness for C10 on the empty store. -/
theorem c10_witness :
    (Mutation.create_user ⟨[], [], []⟩ userInput0 "u1" 0 none).1.users =
      [] ++ [mkUserRow userInput0 "u1" 0]
    ∧ (mkUserRow userInput0 "u1" 0).password_hash = "hashed_" ++ "pw" := by
  obtain ⟨h1, h2, -, -⟩ :=
    c10_password_hash_prefix ⟨[], [], []⟩ userInput0 "u1" 0 none (by rfl)
  exact ⟨h1, h2⟩

/-- C3: an input grade of exactly `0.0` is coerced to null on the write path
(`Decimal(str(input.gpa)) if input.gpa else None` treats the falsy `0.0`
like an absent value), so the whole mutation behaves identically to one with
no grade; the mutation response carries a null grade, and the read-path
conversion (`float(edu.gpa) if edu.gpa else None`, used by every resolver
through `educationOfRow`) returns null for the stored record. -/
theorem c3_zero_gpa_stored_and_read_as_null (st : Store)
    (inp : CreateEducationInput) (newId : String) (now : Nat)
    (fault : Option String) (g : PyFloat) (hg : inp.gpa = some g)
    (hz : g.isZero = true) :
    (mkEducationRow inp newId now).gpa = none
    ∧ Mutation.create_education st inp newId now fault =
        Mutation.create_education st { inp with gpa := none } newId now fault
    ∧ (∀ e : Education,
        (Mutation.create_education st inp newId now fault).2.education =
          some e → e.gpa = none)
    ∧ (∀ row : EducationRow, row.gpa = none → (educationOfRow row).gpa = none) := by
  have hrow : mkEducationRow inp newId now =
      mkEducationRow { inp with gpa := none } newId now := by
    simp [mkEducationRow, gpaIn, hg, hz]
  refine ⟨?_, ?_, ?_, ?_⟩
  · simp [mkEducationRow, gpaIn, hg, hz]
  · unfold Mutation.create_education
    rw [hrow]
  · intro e he
    rcases hc : commitInsert fault
        (insertEducation st (mkEducationRow inp newId now)) with err | st'
    · simp [Mutation.create_education, hc] at he
    · simp [Mutation.create_education, hc] at he
      have : (educationOfRow (mkEducationRow inp newId now)).gpa = none := by
        simp [educationOfRow, gpaOut, mkEducationRow, gpaIn, hg, hz]
      rw [he] at this
      exact this
  · intro row hrow'
    simp [educationOfRow, gpaOut, hrow']

/-- The Python float `0.0`. -/
def zeroFloat : PyFloat := ⟨false, 0, [0]⟩

/-- A concrete `CreateEducationInput` whose `gpa` is exactly `0.0`. -/
def eduInputZero : CreateEducationInput := { eduInput0 with gpa := some zeroFloat }

/-- Witness for C3: with `gpa = 0.0` the constructed row stores a null grade
and the whole mutation equals the grade-less mutation. -/
theorem c3_witness :
    (mkEducationRow eduInputZero "e1" 7).gpa = none
    ∧ Mutation.create_education store1 eduInputZero "e1" 7 none =
        Mutation.create_education store1 { eduInputZero with gpa := none }
          "e1" 7 none := by
  obtain ⟨h1, h2, -, -⟩ :=
    c3_zero_gpa_stored_and_read_as_null store1 eduInputZero "e1" 7 none
      zeroFloat rfl (by decide)
  exact ⟨h1, h2⟩

/-- C7 counterexample: at the concrete input grade `0.0` the stored
fixed-point value is null, not the parse of the float's string rendering
(`Decimal("0.0")`), because the write path first coerces the falsy `0.0` to
null.  The claim's universally quantified conversion equation therefore
fails at `g = 0.0`. -/
theorem c7_counterexample :
    (mkEducationRow eduInputZero "e1" 0).gpa = none
    ∧ (mkEducationRow eduInputZero "e1" 0).gpa ≠
        some (decimalParse (pyFloatRepr zeroFloat)) := by
  constructor
  · decide
  · intro h
    rw [show (mkEducationRow eduInputZero "e1" 0).gpa = none by decide] at h
    cases h

/-- C7 (amended to nonzero grades): for every input carrying a nonzero
(truthy) grade `g`, the stored fixed-point value is obtained by the textual
round-trip — parsing the decimal string rendering of the float — exactly as
`Decimal(str(input.gpa))` does; and on read every stored nonzero fixed-point
grade is converted to a floating-point value for transport by
`float(edu.gpa)`. -/
theorem c7_textual_roundtrip_nonzero (inp : CreateEducationInput)
    (newId : String) (now : Nat) (g : PyFloat) (hg : inp.gpa = some g)
    (hz : g.isZero = false) :
    (mkEducationRow inp newId now).gpa = some (decimalParse (pyFloatRepr g))
    ∧ (∀ (row : EducationRow) (d : PyDecimal), row.gpa = some d →
        d.isZero = false → (educationOfRow row).gpa = some (floatOfDecimal d)) := by
  constructor
  · simp [mkEducationRow, gpaIn, hg, hz, decimalOfFloat]
  · intro row d hd hdz
    simp [educationOfRow, gpaOut, hd, hdz]

/-- Witness for the amended C7 at the grade `3.75`: the stored decimal is
`⟨375, -2⟩`, i.e. the parse of the rendering `"3.75"`, and reading it back
yields the float `3.75`. -/
theorem c7_witness :
    (mkEducationRow eduInput0 "e1" 0).gpa =
      some (decimalParse (pyFloatRepr ⟨false, 3, [7, 5]⟩))
    ∧ (mkEducationRow eduInput0 "e1" 0).gpa = some ⟨375, -2⟩
    ∧ (educationOfRow (mkEducationRow eduInput0 "e1" 0)).gpa =
        some ⟨false, 3, [7, 5]⟩ := by
  obtain ⟨h1, h2⟩ :=
    c7_textual_roundtrip_nonzero eduInput0 "e1" 0 ⟨false, 3, [7, 5]⟩ rfl
      (by decide)
  refine ⟨h1, by decide, ?_⟩
  have h3 := h2 (mkEducationRow eduInput0 "e1" 0) ⟨375, -2⟩ (by decide)
    (by decide)
  rw [h3]
  decide

lemma filter_userid_eq_nil {l : List UserRow} {uid : String}
    (h : ∀ u ∈ l, u.user_id ≠ uid) :
    l.filter (fun u => u.user_id == uid) = [] := by
  simp only [List.filter_eq_nil_iff, beq_iff_eq]
  exact h

lemma filter_userid_singleton {l : List UserRow}
    (hwf : l.Pairwise (fun a b => a.user_id ≠ b.user_id)) {r : UserRow}
    (hr : r ∈ l) : l.filter (fun u => u.user_id == r.user_id) = [r] := by
  induction l with
  | nil => cases hr
  | cons a t ih =>
    rcases List.mem_cons.mp hr with heq | hmem
    · subst heq
      have hhead : ∀ b ∈ t, r.user_id ≠ b.user_id :=
        List.pairwise_cons.mp hwf |>.1
      have htail : t.filter (fun u => u.user_id == r.user_id) = [] := by
        simp only [List.filter_eq_nil_iff, beq_iff_eq]
        exact fun b hb => fun hcontra => hhead b hb hcontra.symm
      simp [List.filter_cons, htail]
    · have hhead : ∀ b ∈ t, a.user_id ≠ b.user_id :=
        List.pairwise_cons.mp hwf |>.1
      have hne : (a.user_id == r.user_id) = false := by
        simp only [beq_eq_false_iff_ne, ne_eq]
        exact hhead r hmem
      have := ih (List.pairwise_cons.mp hwf).2 hmem
      simp [List.filter_cons, hne, this]

/-- C4: for a user owning exactly `N` education rows and `M` job rows, the
nested `education` / `job_experience` resolvers return exactly those `N` and
`M` entities (precisely the rows whose `user_id` equals the parent's id),
and each returned child's nested `user` resolver yields the original user
back (round-trip relationship integrity).  `Store.usersWF` is the
primary-key uniqueness the database guarantees. -/
theorem c4_nested_resolution_roundtrip (st : Store) (urow : UserRow)
    (hwf : st.usersWF) (hu : urow ∈ st.users) :
    User.educationField st (userOfRow urow) =
      (st.educations.filter (fun e => e.user_id == urow.user_id)).map
        educationOfRow
    ∧ (User.educationField st (userOfRow urow)).length =
        (st.educations.filter (fun e => e.user_id == urow.user_id)).length
    ∧ (∀ c ∈ User.educationField st (userOfRow urow),
        c.user_id = urow.user_id
        ∧ Education.userField st c = .ok (some (userOfRow urow)))
    ∧ User.jobExperienceField st (userOfRow urow) =
        (st.jobs.filter (fun j => j.user_id == urow.user_id)).map jobOfRow
    ∧ (User.jobExperienceField st (userOfRow urow)).length =
        (st.jobs.filter (fun j => j.user_id == urow.user_id)).length
    ∧ (∀ c ∈ User.jobExperienceField st (userOfRow urow),
        c.user_id = urow.user_id
        ∧ JobExperience.userField st c = .ok (some (userOfRow urow))) := by
  have hsingle := filter_userid_singleton hwf hu
  refine ⟨rfl, by simp [User.educationField, userOfRow], ?_, rfl,
    by simp [User.jobExperienceField, userOfRow], ?_⟩
  · intro c hc
    simp only [User.educationField, List.mem_map, List.mem_filter,
      beq_iff_eq] at hc
    obtain ⟨erow, ⟨-, hid⟩, hrow⟩ := hc
    have hcid : c.user_id = urow.user_id := by
      rw [← hrow]
      simpa [educationOfRow, userOfRow] using hid
    refine ⟨hcid, ?_⟩
    simp [Education.userField, hcid, hsingle, scalarOneOrNone, Except.map]
  · intro c hc
    simp only [User.jobExperienceField, List.mem_map, List.mem_filter,
      beq_iff_eq] at hc
    obtain ⟨jrow, ⟨-, hid⟩, hrow⟩ := hc
    have hcid : c.user_id = urow.user_id := by
      rw [← hrow]
      simpa [jobOfRow, userOfRow] using hid
    refine ⟨hcid, ?_⟩
    simp [JobExperience.userField, hcid, hsingle, scalarOneOrNone, Except.map]

/-- A concrete education row owned by `userRow0`. -/
def eduRow0 : EducationRow :=
  { education_id := "e0", user_id := "u0", institution_name := "MIT"
    location := none, date_started := 20200101, date_finished := none
    major := none, minor := none, gpa := some ⟨375, -2⟩, details := none
    created_at := 0, updated_at := 0 }

/-- A concrete job experience row owned by `userRow0`. -/
def jobRow0 : JobRow :=
  { job_id := "j0", user_id := "u0", company_name := "Acme"
    job_title := none, location := none, date_started := 20210101
    date_left := none, details := none, created_at := 0, updated_at := 0 }

/-- A concrete store with one user owning one education row and one job row. -/
def store2 : Store := ⟨[userRow0], [eduRow0], [jobRow0]⟩

/-- Witness for C4 on `store2`: the one-user store resolves exactly one
education child and one job child, each resolving back to the user. -/
theorem c4_witness :
    (User.educationField store2 (userOfRow userRow0)).length =
      (store2.educations.filter (fun e => e.user_id == userRow0.user_id)).length
    ∧ (∀ c ∈ User.educationField store2 (userOfRow userRow0),
        c.user_id = userRow0.user_id
        ∧ Education.userField store2 c = .ok (some (userOfRow userRow0)))
    ∧ (∀ c ∈ User.jobExperienceField store2 (userOfRow userRow0),
        c.user_id = userRow0.user_id
        ∧ JobExperience.userField store2 c = .ok (some (userOfRow userRow0))) := by
  obtain ⟨-, h2, h3, -, -, h6⟩ :=
    c4_nested_resolution_roundtrip store2 userRow0
      (by simp [Store.usersWF, store2]) (by simp [store2])
  exact ⟨h2, h3, h6⟩

/-- C5: looking a user up by identifier — through the root `user(id)` query
or through the nested `Education.user` / `JobExperience.user` fields —
returns an explicit `none` (not an error) when no row matches, and returns
exactly the one matching entity when a row matches (under the database's
primary-key uniqueness). -/
theorem c5_user_lookup (st : Store) (uid : String) :
    ((∀ u ∈ st.users, u.user_id ≠ uid) →
      Query.user st uid = .ok none
      ∧ (∀ c : Education, c.user_id = uid →
          Education.userField st c = .ok none)
      ∧ (∀ j : JobExperience, j.user_id = uid →
          JobExperience.userField st j = .ok none))
    ∧ (∀ urow, st.usersWF → urow ∈ st.users → urow.user_id = uid →
      Query.user st uid = .ok (some (userOfRow urow))
      ∧ (∀ c : Education, c.user_id = uid →
          Education.userField st c = .ok (some (userOfRow urow)))
      ∧ (∀ j : JobExperience, j.user_id = uid →
          JobExperience.userField st j = .ok (some (userOfRow urow)))) := by
  constructor
  · intro habs
    have hnil := filter_userid_eq_nil habs
    refine ⟨?_, fun c hc => ?_, fun j hj => ?_⟩
    · simp [Query.user, hnil, scalarOneOrNone, Except.map]
    · simp [Education.userField, hc, hnil, scalarOneOrNone, Except.map]
    · simp [JobExperience.userField, hj, hnil, scalarOneOrNone, Except.map]
  · intro urow hwf hmem hid
    have hsingle := filter_userid_singleton hwf hmem
    rw [hid] at hsingle
    refine ⟨?_, fun c hc => ?_, fun j hj => ?_⟩
    · simp [Query.user, hsingle, scalarOneOrNone, Except.map]
    · simp [Education.userField, hc, hsingle, scalarOneOrNone, Except.map]
    · simp [JobExperience.userField, hj, hsingle, scalarOneOrNone, Except.map]

/-- Witness for C5 on `store2`: the dangling id `"zz"` yields `ok none` from
the root query and from a nested resolver, and `"u0"` yields the user. -/
theorem c5_witness :
    Query.user store2 "zz" = .ok none
    ∧ Education.userField store2 (educationOfRow eduRow0) =
        .ok (some (userOfRow userRow0)) := by
  obtain ⟨habs, -, -⟩ := (c5_user_lookup store2 "zz").1 (by decide)
  obtain ⟨-, hpres, -⟩ :=
    (c5_user_lookup store2 "u0").2 userRow0 (by simp [Store.usersWF, store2])
      (by simp [store2]) rfl
  exact ⟨habs, hpres (educationOfRow eduRow0) rfl⟩

/-- C6 counterexample: on a store whose only education row (and only job
row) is owned by `"u0"`, invoking the list queries with the supplied filter
value `""` does not return the set of rows whose owner equals `""` (which is
empty) — it returns all rows, because `if user_id:` treats the supplied
empty string as no filter. -/
theorem c6_counterexample :
    Query.education_records store2 (some "") ≠
      (store2.educations.filter (fun e => e.user_id == "")).map educationOfRow
    ∧ Query.job_experiences store2 (some "") ≠
      (store2.jobs.filter (fun j => j.user_id == "")).map jobOfRow := by
  constructor
  · intro h
    have h1 : (Query.education_records store2 (some "")).length = 1 := by decide
    have h2 : ((store2.educations.filter
        (fun e => e.user_id == "")).map educationOfRow).length = 0 := by decide
    rw [h] at h1
    rw [h1] at h2
    cases h2
  · intro h
    have h1 : (Query.job_experiences store2 (some "")).length = 1 := by decide
    have h2 : ((store2.jobs.filter
        (fun j => j.user_id == "")).map jobOfRow).length = 0 := by decide
    rw [h] at h1
    rw [h1] at h2
    cases h2

/-- C6 (amended: a supplied filter must be non-empty to take effect): with a
non-empty `user_id` argument, `education_records` / `job_experiences` return
exactly the rows whose owner equals the argument; with no argument (or, per
the counterexample, with the empty string) they return all rows of the
table. -/
theorem c6_list_queries_filtered (st : Store) (uid : String)
    (hne : uid ≠ "") :
    Query.education_records st (some uid) =
      (st.educations.filter (fun e => e.user_id == uid)).map educationOfRow
    ∧ Query.education_records st none = st.educations.map educationOfRow
    ∧ Query.job_experiences st (some uid) =
      (st.jobs.filter (fun j => j.user_id == uid)).map jobOfRow
    ∧ Query.job_experiences st none = st.jobs.map jobOfRow := by
  refine ⟨?_, rfl, ?_, rfl⟩
  · simp [Query.education_records, hne]
  · simp [Query.job_experiences, hne]

/-- Witness for the amended C6 on `store2` with the non-empty filter
`"u0"`. -/
theorem c6_witness :
    Query.education_records store2 (some "u0") =
      (store2.educations.filter (fun e => e.user_id == "u0")).map
        educationOfRow
    ∧ Query.job_experiences store2 (some "u0") =
      (store2.jobs.filter (fun j => j.user_id == "u0")).map jobOfRow := by
  obtain ⟨h1, -, h3, -⟩ :=
    c6_list_queries_filtered store2 "u0" (by decide)
  exact ⟨h1, h3⟩

/-- C9: a supplied-but-empty `user_id` argument to the list queries behaves
exactly like an absent one — the truthiness test `if user_id:` silently
ignores the falsy empty string — so both return every row of the table. -/
theorem c9_empty_filter_ignored (st : Store) :
    Query.education_records st (some "") = Query.education_records st none
    ∧ Query.education_records st none = st.educations.map educationOfRow
    ∧ Query.job_experiences st (some "") = Query.job_experiences st none
    ∧ Query.job_experiences st none = st.jobs.map jobOfRow := by
  refine ⟨?_, rfl, ?_, rfl⟩
  · simp [Query.education_records]
  · simp [Query.job_experiences]

/-- One invocation of `create_user`: its input, the identifier `uuid4`
produces for the new row, the `utcnow` timestamp, and any injected
persistence fault. -/
structure CreateUserCall where
  input : CreateUserInput
  newId : String
  now : Nat
  fault : Option String

/-- Run a sequence of `create_user` invocations against the store, threading
the committed state and collecting every response. -/
def runCreateUsers (st : Store) : List CreateUserCall →
    Store × List CreateUserResponse
  | [] => (st, [])
  | c :: cs =>
      let p := Mutation.create_user st c.input c.newId c.now c.fault
      let q := runCreateUsers p.1 cs
      (q.1, p.2 :: q.2)

/-- The identifiers returned by the creations: failed mutations carry
`user = null` and so return no identifier. -/
def returnedUserIds (rs : List CreateUserResponse) : List String :=
  rs.filterMap (fun r => r.user.map (fun u => u.user_id))

lemma runCreateUsers_ids (calls : List CreateUserCall) : ∀ st : Store,
    (returnedUserIds (runCreateUsers st calls).2).Pairwise (· ≠ ·)
    ∧ ∀ id ∈ returnedUserIds (runCreateUsers st calls).2,
        id ∉ st.users.map (fun u => u.user_id) := by
  induction calls with
  | nil => intro st; simp [runCreateUsers, returnedUserIds]
  | cons c cs ih =>
    intro st
    rcases create_user_cases st c.input c.newId c.now c.fault with
      ⟨-, hnone, hst⟩ | ⟨-, hsome, husers, hpk⟩
    · have hids : returnedUserIds (runCreateUsers st (c :: cs)).2 =
          returnedUserIds
            (runCreateUsers
              (Mutation.create_user st c.input c.newId c.now c.fault).1 cs).2 := by
        simp [runCreateUsers, returnedUserIds, hnone]
      rw [hids, hst]
      exact ih st
    · set st1 := (Mutation.create_user st c.input c.newId c.now c.fault).1
        with hst1
      have hids : returnedUserIds (runCreateUsers st (c :: cs)).2 =
          c.newId :: returnedUserIds (runCreateUsers st1 cs).2 := by
        simp [runCreateUsers, returnedUserIds, hsome, userOfRow, mkUserRow]
      have hmono : ∀ id, id ∈ st.users.map (fun u => u.user_id) →
          id ∈ st1.users.map (fun u => u.user_id) := by
        intro id hid
        rw [husers]
        simp only [List.map_append, List.mem_append]
        exact Or.inl hid
      have hnew : c.newId ∈ st1.users.map (fun u => u.user_id) := by
        rw [husers]
        simp [mkUserRow]
      obtain ⟨ihp, ihn⟩ := ih st1
      rw [hids]
      constructor
      · constructor
        · intro b hb
          intro hcontra
          exact ihn b hb (hcontra ▸ hnew)
        · exact ihp
      · intro id hid
        rcases List.mem_cons.mp hid with heq | hmem
        · subst heq
          simp only [List.mem_map]
          rintro ⟨u, hu, huid⟩
          exact hpk u hu huid
        · intro hin
          exact ihn id hmem (hmono id hin)

/-- C8: across any sequence of `create_user` invocations, the identifiers
returned by the successful creations are pairwise distinct.  Freshness is
guaranteed observationally: the `uuid4` column default is modelled as an
arbitrary identifier supply, and the `users` primary key makes any insert
that would reuse an existing identifier fail, so every identifier actually
returned is new. -/
theorem c8_created_user_ids_unique (st : Store)
    (calls : List CreateUserCall) :
    (returnedUserIds (runCreateUsers st calls).2).Pairwise (· ≠ ·) :=
  (runCreateUsers_ids calls st).1
